import Mathlib

/-!
Shallow embedding of `src/src/libusb/AFU420PropertyImpl.cpp` (namespace
`tcam::property`), the AFU420 typed property implementations:
`AFU420PropertyIntegerImpl`, `AFU420PropertyDoubleImpl`,
`AFU420PropertyBoolImpl`, `AFU420PropertyEnumImpl`.

Modelling conventions:
* `int64_t` is `Int`; the C++ `int` (32-bit) narrowing conversion that occurs
  when an `int64_t` is passed to a parameter of type `int` is made explicit by
  `toInt32` (two's-complement wrap modulo 2^32, as on the target compilers).
* `double` is modelled as an exact rational `ℚ`; the implicit C++ conversion
  `double → int64_t` truncates toward zero and is made explicit by `ratTrunc`.
* `outcome::result<T>` is `Except Status T`; `return tcam::status::X;` inside a
  `result` function builds the failure `Except.error X`.
* `tcam::status` is modelled by the constructors that appear in the file plus
  `other n`, standing for any of the remaining enum values a backend may report.
* The weak backend reference `m_cam` is modelled by passing the outcome of
  `m_cam.lock()` to each operation as an `Option AFU420DeviceBackend`
  (`none` = the `weak_ptr` has expired, the device was closed).
* `AFU420DeviceBackend` (header not part of the sources) is the abstract
  backend contract of spec §4.4: per-identifier read/write operations that
  return a value or a failure.  To make "the backend is (not) contacted"
  observable, every property operation additionally returns the list of
  backend calls it performed, in order.
* `std::map<int, std::string>` is an association list whose keys are kept in
  strictly increasing order (the `std::map` invariant); iteration order is
  list order.  `map::at` throwing `std::out_of_range` is modelled by the
  distinguished outcome `CallOutcome.thrown`.
-/

namespace AFU420

/-- The `tcam::status` error codes used in `AFU420PropertyImpl.cpp`;
`other n` stands for any other value of the enum (backends may report any). -/
inductive Status where
  | resourceNotLockable
  | propertyOutOfBounds
  | propertyValueDoesNotExist
  | undefinedError
  | other (n : Nat)
  deriving DecidableEq, Repr

/-- Identifier type `tcam::afu420::AFU420Property`, the opaque backend property identifier. -/
abbrev AFU420Property := Nat

/-- C++ narrowing conversion `int64_t → int` (32-bit two's complement wrap),
performed implicitly at calls that pass an `int64_t` to an `int` parameter. -/
def toInt32 (v : Int) : Int :=
  (v + 2 ^ 31) % 2 ^ 32 - 2 ^ 31

/-- C++ conversion `double → int64_t`: truncation toward zero
(doubles modelled as exact rationals). -/
def ratTrunc (q : ℚ) : Int :=
  if 0 ≤ q.num then ((q.num.toNat / q.den : Nat) : Int)
  else -(((-q.num).toNat / q.den : Nat) : Int)

/-- The `AFU420DeviceBackend` contract consumed by the property layer
(spec §4.4): raw reads/writes keyed by the property identifier, each
returning a value or a backend-reported failure. -/
structure AFU420DeviceBackend where
  get_int : AFU420Property → Except Status Int
  set_int : AFU420Property → Int → Except Status Unit
  get_bool : AFU420Property → Except Status Bool
  set_bool : AFU420Property → Bool → Except Status Unit

/-- One observable interaction with the backend. -/
inductive BackendCall where
  | getInt (id : AFU420Property)
  | setInt (id : AFU420Property) (v : Int)
  | getBool (id : AFU420Property)
  | setBool (id : AFU420Property) (v : Bool)
  deriving DecidableEq, Repr

/-- Modelled from the spec: the capability flag bitmask (§3, §6) with its
`Available` and `Implemented` bits (`PropertyFlags` in the missing header). -/
structure PropertyFlags where
  available : Bool
  implemented : Bool
  deriving DecidableEq, Repr

/-- The bitmask `PropertyFlags::Available | PropertyFlags::Implemented`. -/
def PropertyFlags.availableImplemented : PropertyFlags :=
  { available := true, implemented := true }

/-- Enum `tcamprop1::prop_type`, the value-kind tag of a static descriptor. -/
inductive prop_type where
  | Boolean
  | Integer
  | Float
  | Enumeration
  | Command
  deriving DecidableEq, Repr

/-- Stand-in for the per-kind `tcamprop1::prop_static_info_*` records the
constructors cast to (their unit / representation content is not needed by
any claim; only the pointer's presence matters). -/
structure prop_static_info where
  token : Nat
  deriving DecidableEq, Repr

/-- The result of `tcamprop1::find_prop_static_info(name)`: a kind tag and a
possibly-null pointer to the static record.  The global descriptor registry
itself is outside this file; each constructor receives the lookup result. -/
structure find_prop_static_info_res where
  type : prop_type
  info_ptr : Option prop_static_info
  deriving DecidableEq, Repr

/-- Struct `tcam_value_int`: initial range/default data handed to the constructor. -/
structure tcam_value_int where
  min : Int
  max : Int
  step : Int
  default_value : Int
  deriving DecidableEq, Repr

/-- Struct `tcam_value_double`: initial range/default data (doubles as rationals). -/
structure tcam_value_double where
  min : ℚ
  max : ℚ
  step : ℚ
  default_value : ℚ
  deriving DecidableEq, Repr

/-! ### AFU420PropertyIntegerImpl -/

/-- State of an `AFU420PropertyIntegerImpl` (the fields its members read). -/
structure AFU420PropertyIntegerImpl where
  m_name : String
  m_id : AFU420Property
  m_min : Int
  m_max : Int
  m_step : Int
  m_default : Int
  m_flags : PropertyFlags
  p_static_info : Option prop_static_info

namespace AFU420PropertyIntegerImpl

/-- The constructor `AFU420PropertyIntegerImpl::AFU420PropertyIntegerImpl`:
caches the range data, sets `m_flags = Available | Implemented`, then looks
up the static descriptor; `p_static_info` is set only when the lookup found
a record of type `Integer`, and left null otherwise (both error branches
only log). -/
def construct (name : String) (i : tcam_value_int) (id : AFU420Property)
    (lookup : find_prop_static_info_res) : AFU420PropertyIntegerImpl :=
  { m_name := name
    m_id := id
    m_min := i.min
    m_max := i.max
    m_step := i.step
    m_default := i.default_value
    m_flags := PropertyFlags.availableImplemented
    p_static_info :=
      if lookup.type = prop_type.Integer then lookup.info_ptr else none }

/-- Modelled from the spec: the cached-range getter `get_min` of the missing
header (§3: cached range metadata; §4.1 contract surface). -/
def get_min (p : AFU420PropertyIntegerImpl) : Int := p.m_min

/-- Modelled from the spec: the cached-range getter `get_max`. -/
def get_max (p : AFU420PropertyIntegerImpl) : Int := p.m_max

/-- Member `AFU420PropertyIntegerImpl::get_value`: lock the backend and read, or
fail with `ResourceNotLockable` without touching hardware. -/
def get_value (p : AFU420PropertyIntegerImpl)
    (cam : Option AFU420DeviceBackend) :
    Except Status Int × List BackendCall :=
  match cam with
  | some ptr => (ptr.get_int p.m_id, [BackendCall.getInt p.m_id])
  | none => (Except.error Status.resourceNotLockable, [])

/-- Member `AFU420PropertyIntegerImpl::set_value`: lock the backend and forward the
value (no validation here), or fail with `ResourceNotLockable`. -/
def set_value (p : AFU420PropertyIntegerImpl)
    (cam : Option AFU420DeviceBackend) (new_value : Int) :
    Except Status Unit × List BackendCall :=
  match cam with
  | some ptr => (ptr.set_int p.m_id new_value, [BackendCall.setInt p.m_id new_value])
  | none => (Except.error Status.resourceNotLockable, [])

/-- Member `AFU420PropertyIntegerImpl::valid_value`: reject values outside
`[get_min(), get_max()]` with `PropertyOutOfBounds`. -/
def valid_value (p : AFU420PropertyIntegerImpl) (value : Int) :
    Except Status Unit :=
  if p.get_min > value ∨ value > p.get_max then
    Except.error Status.propertyOutOfBounds
  else
    Except.ok ()

end AFU420PropertyIntegerImpl

/-! ### AFU420PropertyDoubleImpl -/

/-- State of an `AFU420PropertyDoubleImpl`. -/
structure AFU420PropertyDoubleImpl where
  m_name : String
  m_id : AFU420Property
  m_min : ℚ
  m_max : ℚ
  m_step : ℚ
  m_default : ℚ
  m_flags : PropertyFlags
  p_static_info : Option prop_static_info

namespace AFU420PropertyDoubleImpl

/-- The constructor `AFU420PropertyDoubleImpl::AFU420PropertyDoubleImpl`:
same shape as the integer one, static info kept only for type `Float`. -/
def construct (name : String) (d : tcam_value_double) (id : AFU420Property)
    (lookup : find_prop_static_info_res) : AFU420PropertyDoubleImpl :=
  { m_name := name
    m_id := id
    m_min := d.min
    m_max := d.max
    m_step := d.step
    m_default := d.default_value
    m_flags := PropertyFlags.availableImplemented
    p_static_info :=
      if lookup.type = prop_type.Float then lookup.info_ptr else none }

/-- Modelled from the spec: the cached-range getter `get_min`. -/
def get_min (p : AFU420PropertyDoubleImpl) : ℚ := p.m_min

/-- Modelled from the spec: the cached-range getter `get_max`. -/
def get_max (p : AFU420PropertyDoubleImpl) : ℚ := p.m_max

/-- Member `AFU420PropertyDoubleImpl::get_value`: locks the backend, reads the
underlying integer (`ptr->get_int`), converts it to double on success and
propagates the failure (`ret.as_failure()`) otherwise. -/
def get_value (p : AFU420PropertyDoubleImpl)
    (cam : Option AFU420DeviceBackend) :
    Except Status ℚ × List BackendCall :=
  match cam with
  | some ptr =>
    (match ptr.get_int p.m_id with
     | Except.ok v => Except.ok (v : ℚ)
     | Except.error e => Except.error e,
     [BackendCall.getInt p.m_id])
  | none => (Except.error Status.resourceNotLockable, [])

/-- Member `AFU420PropertyDoubleImpl::set_value`:
`OUTCOME_TRY(ptr->set_int(m_id, new_value))` — the double is implicitly
converted (truncated toward zero) to `int64_t` and forwarded, with the
backend failure propagated unchanged; no validation here. -/
def set_value (p : AFU420PropertyDoubleImpl)
    (cam : Option AFU420DeviceBackend) (new_value : ℚ) :
    Except Status Unit × List BackendCall :=
  match cam with
  | some ptr =>
    (match ptr.set_int p.m_id (ratTrunc new_value) with
     | Except.ok _ => Except.ok ()
     | Except.error e => Except.error e,
     [BackendCall.setInt p.m_id (ratTrunc new_value)])
  | none => (Except.error Status.resourceNotLockable, [])

/-- Member `AFU420PropertyDoubleImpl::valid_value`: reject values outside
`[get_min(), get_max()]` with `PropertyOutOfBounds`. -/
def valid_value (p : AFU420PropertyDoubleImpl) (value : ℚ) :
    Except Status Unit :=
  if p.get_min > value ∨ value > p.get_max then
    Except.error Status.propertyOutOfBounds
  else
    Except.ok ()

end AFU420PropertyDoubleImpl

/-! ### AFU420PropertyBoolImpl -/

/-- State of an `AFU420PropertyBoolImpl` (unlike the numeric variants it
keeps a cached mirror `m_value` of the last successfully written value). -/
structure AFU420PropertyBoolImpl where
  m_name : String
  m_id : AFU420Property
  m_default : Bool
  m_value : Bool
  m_flags : PropertyFlags
  p_static_info : Option prop_static_info

namespace AFU420PropertyBoolImpl

/-- The constructor `AFU420PropertyBoolImpl::AFU420PropertyBoolImpl`:
`m_flags = Available | Implemented`, `m_value = m_default`, static info kept
only for a lookup of type `Boolean`. -/
def construct (name : String) (default_value : Bool) (id : AFU420Property)
    (lookup : find_prop_static_info_res) : AFU420PropertyBoolImpl :=
  { m_name := name
    m_id := id
    m_default := default_value
    m_value := default_value
    m_flags := PropertyFlags.availableImplemented
    p_static_info :=
      if lookup.type = prop_type.Boolean then lookup.info_ptr else none }

/-- Member `AFU420PropertyBoolImpl::get_value`: lock the backend and read, or fail
with `ResourceNotLockable`. -/
def get_value (p : AFU420PropertyBoolImpl)
    (cam : Option AFU420DeviceBackend) :
    Except Status Bool × List BackendCall :=
  match cam with
  | some ptr => (ptr.get_bool p.m_id, [BackendCall.getBool p.m_id])
  | none => (Except.error Status.resourceNotLockable, [])

/-- Member `AFU420PropertyBoolImpl::set_value`: forwards to `ptr->set_bool`; on
success the cached mirror `m_value` is updated, on a backend-reported
failure the code drops the backend's error and returns `UndefinedError`,
leaving `m_value` untouched.  Returns (result, updated property, calls). -/
def set_value (p : AFU420PropertyBoolImpl)
    (cam : Option AFU420DeviceBackend) (new_value : Bool) :
    Except Status Unit × AFU420PropertyBoolImpl × List BackendCall :=
  match cam with
  | some ptr =>
    match ptr.set_bool p.m_id new_value with
    | Except.ok _ =>
      (Except.ok (), { p with m_value := new_value },
       [BackendCall.setBool p.m_id new_value])
    | Except.error _ =>
      (Except.error Status.undefinedError, p,
       [BackendCall.setBool p.m_id new_value])
  | none => (Except.error Status.resourceNotLockable, p, [])

end AFU420PropertyBoolImpl

/-! ### AFU420PropertyEnumImpl -/

/-- Lookup `std::map<int, std::string>::find` on the association-list model:
the first (and, under the sortedness invariant, only) binding of the key. -/
def mapFind (entries : List (Int × String)) (key : Int) : Option String :=
  match entries with
  | [] => none
  | (k, s) :: rest => if k = key then some s else mapFind rest key

/-- Builds a `std::map<int, std::string>` from a sequence of insertions:
`insert` places a new key at its sorted position and is a no-op on a key
that is already present. -/
def mapInsert (entries : List (Int × String)) (k : Int) (s : String) :
    List (Int × String) :=
  match entries with
  | [] => [(k, s)]
  | (k₀, s₀) :: rest =>
    if k < k₀ then (k, s) :: (k₀, s₀) :: rest
    else if k = k₀ then (k₀, s₀) :: rest
    else (k₀, s₀) :: mapInsert rest k s

/-- A `std::map<int, std::string>` built by inserting the given pairs in
order (how the caller-supplied `entries` argument of the enum constructor
comes to exist). -/
def mapOfList (l : List (Int × String)) : List (Int × String) :=
  l.foldl (fun m kv => mapInsert m kv.1 kv.2) []

/-- Outcome of a C++ member function call that may, besides returning an
`outcome::result`, let an exception escape (`std::map::at` throwing
`std::out_of_range`). -/
inductive CallOutcome (α : Type) where
  | ok (a : α)
  | err (s : Status)
  | thrown
  deriving DecidableEq, Repr

/-- State of an `AFU420PropertyEnumImpl`: the entry table is the
`std::map<int, std::string>` model, keys in strictly increasing order. -/
structure AFU420PropertyEnumImpl where
  m_name : String
  m_id : AFU420Property
  m_entries : List (Int × String)
  m_flags : PropertyFlags
  p_static_info : Option prop_static_info

namespace AFU420PropertyEnumImpl

/-- The constructor `AFU420PropertyEnumImpl::AFU420PropertyEnumImpl`:
stores the entry table, `m_flags = Available | Implemented`, static info
kept only for a lookup of type `Enumeration`. -/
def construct (name : String) (id : AFU420Property)
    (entries : List (Int × String)) (lookup : find_prop_static_info_res) :
    AFU420PropertyEnumImpl :=
  { m_name := name
    m_id := id
    m_entries := entries
    m_flags := PropertyFlags.availableImplemented
    p_static_info :=
      if lookup.type = prop_type.Enumeration then lookup.info_ptr else none }

/-- Member `AFU420PropertyEnumImpl::valid_value(int value)`: membership test via
`m_entries.find(value)`.  Note the parameter type is `int`, not `int64_t`. -/
def valid_value (p : AFU420PropertyEnumImpl) (value : Int) : Bool :=
  (mapFind p.m_entries value).isSome

/-- Member `AFU420PropertyEnumImpl::set_value(int64_t new_value)`: first
`valid_value(new_value)` — the `int64_t` argument is narrowed to `int`
here — failing with `PropertyValueDoesNotExist`; then lock the backend and
forward the (un-narrowed) `int64_t` value, or fail with
`ResourceNotLockable`.  (The trailing `return tcam::status::Success;` in
the source is unreachable.) -/
def set_value (p : AFU420PropertyEnumImpl)
    (cam : Option AFU420DeviceBackend) (new_value : Int) :
    Except Status Unit × List BackendCall :=
  if ¬ p.valid_value (toInt32 new_value) then
    (Except.error Status.propertyValueDoesNotExist, [])
  else
    match cam with
    | some ptr =>
      (ptr.set_int p.m_id new_value, [BackendCall.setInt p.m_id new_value])
    | none => (Except.error Status.resourceNotLockable, [])

/-- Member `AFU420PropertyEnumImpl::set_value_str`: iterate the entry table in
order, and on the first entry whose label equals `new_value` defer to
`set_value` with that entry's code; if no entry matches, fail with
`PropertyValueDoesNotExist`. -/
def set_value_str (p : AFU420PropertyEnumImpl)
    (cam : Option AFU420DeviceBackend) (new_value : String) :
    Except Status Unit × List BackendCall :=
  set_value_str_loop p cam new_value p.m_entries
where
  /-- The `for (auto it = m_entries.begin(); ...)` loop body. -/
  set_value_str_loop (p : AFU420PropertyEnumImpl)
      (cam : Option AFU420DeviceBackend) (new_value : String) :
      List (Int × String) → Except Status Unit × List BackendCall
    | [] => (Except.error Status.propertyValueDoesNotExist, [])
    | (k, s) :: rest =>
      if s = new_value then set_value p cam k
      else set_value_str_loop p cam new_value rest

/-- Member `AFU420PropertyEnumImpl::get_value_int`: lock the backend and read the
raw code, or fail with `ResourceNotLockable`. -/
def get_value_int (p : AFU420PropertyEnumImpl)
    (cam : Option AFU420DeviceBackend) :
    Except Status Int × List BackendCall :=
  match cam with
  | some ptr => (ptr.get_int p.m_id, [BackendCall.getInt p.m_id])
  | none => (Except.error Status.resourceNotLockable, [])

/-- Member `AFU420PropertyEnumImpl::get_value`:
`OUTCOME_TRY(auto value, get_value_int());` then `m_entries.at(value)` —
the `int64_t` code is narrowed to `int` by `at`'s key parameter, and a code
absent from the table makes `at` throw `std::out_of_range`
(the source's own `// TODO: additional checks if key exists`). -/
def get_value (p : AFU420PropertyEnumImpl)
    (cam : Option AFU420DeviceBackend) :
    CallOutcome String × List BackendCall :=
  match get_value_int p cam with
  | (Except.error e, tr) => (CallOutcome.err e, tr)
  | (Except.ok value, tr) =>
    match mapFind p.m_entries (toInt32 value) with
    | some s => (CallOutcome.ok s, tr)
    | none => (CallOutcome.thrown, tr)

/-- Member `AFU420PropertyEnumImpl::get_entries`: push every entry's label, in
table iteration order. -/
def get_entries (p : AFU420PropertyEnumImpl) : List String :=
  p.m_entries.map Prod.snd

end AFU420PropertyEnumImpl

/-! ### Concrete collaborators for instantiating the theorems -/

/-- A backend whose writes all succeed and whose reads return fixed values
(the integer read returns 5). -/
def acceptingBackend : AFU420DeviceBackend where
  get_int := fun _ => Except.ok 5
  set_int := fun _ _ => Except.ok ()
  get_bool := fun _ => Except.ok true
  set_bool := fun _ _ => Except.ok ()

/-- A backend all of whose operations report the given failure. -/
def failingBackend (e : Status) : AFU420DeviceBackend where
  get_int := fun _ => Except.error e
  set_int := fun _ _ => Except.error e
  get_bool := fun _ => Except.error e
  set_bool := fun _ _ => Except.error e

/-- A concrete integer property with range `[0, 100]` (spec scenario A). -/
def gainProp : AFU420PropertyIntegerImpl :=
  AFU420PropertyIntegerImpl.construct "Gain" ⟨0, 100, 1, 50⟩ 3
    ⟨prop_type.Integer, none⟩

/-- A concrete float-over-integer property with range `[0, 1000]`
(spec scenario C). -/
def exposureProp : AFU420PropertyDoubleImpl :=
  AFU420PropertyDoubleImpl.construct "ExposureTime" ⟨0, 1000, 1, 33⟩ 4
    ⟨prop_type.Float, none⟩

/-- A concrete boolean property. -/
def strobeProp : AFU420PropertyBoolImpl :=
  AFU420PropertyBoolImpl.construct "StrobeEnable" false 6
    ⟨prop_type.Boolean, none⟩

/-- A concrete enumeration property with entries
`{0:"Off", 1:"Auto", 2:"Manual"}` (spec scenario B). -/
def triggerProp : AFU420PropertyEnumImpl :=
  AFU420PropertyEnumImpl.construct "TriggerMode" 9
    [(0, "Off"), (1, "Auto"), (2, "Manual")] ⟨prop_type.Enumeration, none⟩

/-! ### Helper lemmas -/

/-- For a nonnegative rational, the C++ `double → int64_t` conversion is
the floor. -/
theorem ratTrunc_eq_floor {w : ℚ} (h : 0 ≤ w) : ratTrunc w = ⌊w⌋ := by
  unfold ratTrunc
  rw [if_pos (Rat.num_nonneg.mpr h), Rat.floor_def, Int.natCast_div,
    Int.toNat_of_nonneg (Rat.num_nonneg.mpr h)]

/-- For a negative rational, the C++ `double → int64_t` conversion is the
ceiling (truncation is toward zero). -/
theorem ratTrunc_eq_ceil {w : ℚ} (h : w < 0) : ratTrunc w = ⌈w⌉ := by
  unfold ratTrunc
  rw [if_neg (by simpa using Rat.num_neg.mpr h)]
  have h2 : ⌈w⌉ = -⌊-w⌋ := by
    conv_lhs => rw [← neg_neg w]
    rw [Int.ceil_neg]
  rw [h2, Rat.floor_def, Rat.neg_num, Rat.neg_den, Int.natCast_div,
    Int.toNat_of_nonneg (by have := Rat.num_neg.mpr h; omega)]

/-- Everything in `mapInsert m k s` was in `m` or is the inserted pair. -/
theorem mem_of_mem_mapInsert {k : Int} {s : String} :
    ∀ {m : List (Int × String)} {x : Int × String},
      x ∈ mapInsert m k s → x ∈ m ∨ x = (k, s) := by
  intro m
  induction m with
  | nil =>
    intro x hx
    simp only [mapInsert, List.mem_singleton] at hx
    exact Or.inr hx
  | cons hd tl ih =>
    intro x hx
    obtain ⟨k₀, s₀⟩ := hd
    simp only [mapInsert] at hx
    split_ifs at hx with h1 h2
    · rcases List.mem_cons.mp hx with h | h
      · exact Or.inr h
      · exact Or.inl h
    · exact Or.inl hx
    · rcases List.mem_cons.mp hx with h | h
      · exact Or.inl (List.mem_cons.mpr (Or.inl h))
      · rcases ih h with h' | h'
        · exact Or.inl (List.mem_cons.mpr (Or.inr h'))
        · exact Or.inr h'

/-- Insertion `mapInsert` preserves the `std::map` invariant of strictly increasing
keys. -/
theorem pairwise_mapInsert {k : Int} {s : String} :
    ∀ {m : List (Int × String)},
      m.Pairwise (fun a b => a.1 < b.1) →
      (mapInsert m k s).Pairwise (fun a b => a.1 < b.1) := by
  intro m
  induction m with
  | nil =>
    intro _
    simp [mapInsert]
  | cons hd tl ih =>
    intro hp
    obtain ⟨k₀, s₀⟩ := hd
    rw [List.pairwise_cons] at hp
    obtain ⟨hhead, htl⟩ := hp
    simp only [mapInsert]
    split_ifs with h1 h2
    · rw [List.pairwise_cons]
      refine ⟨?_, List.pairwise_cons.mpr ⟨hhead, htl⟩⟩
      intro y hy
      rcases List.mem_cons.mp hy with h | h
      · rw [h]
        exact h1
      · exact lt_trans h1 (hhead y h)
    · exact List.pairwise_cons.mpr ⟨hhead, htl⟩
    · rw [List.pairwise_cons]
      refine ⟨?_, ih htl⟩
      intro y hy
      rcases mem_of_mem_mapInsert hy with h | h
      · exact hhead y h
      · rw [h]
        simp only []
        omega

/-- Keys of a map built by repeated insertion are strictly increasing. -/
theorem pairwise_foldl_mapInsert (l : List (Int × String)) :
    ∀ m, m.Pairwise (fun a b => a.1 < b.1) →
      (l.foldl (fun acc kv => mapInsert acc kv.1 kv.2) m).Pairwise
        (fun a b => a.1 < b.1) := by
  induction l with
  | nil => exact fun m hm => hm
  | cons hd tl ih => exact fun m hm => ih _ (pairwise_mapInsert hm)

/-- Every entry of a map built by repeated insertion comes from the
accumulator or from the inserted list. -/
theorem mem_foldl_mapInsert (l : List (Int × String)) :
    ∀ m x, x ∈ l.foldl (fun acc kv => mapInsert acc kv.1 kv.2) m →
      x ∈ m ∨ x ∈ l := by
  induction l with
  | nil => exact fun m x hx => Or.inl hx
  | cons hd tl ih =>
    intro m x hx
    rcases ih _ x hx with h | h
    · rcases mem_of_mem_mapInsert h with h' | h'
      · exact Or.inl h'
      · refine Or.inr (List.mem_cons.mpr (Or.inl ?_))
        rw [h']
    · exact Or.inr (List.mem_cons.mpr (Or.inr h))

/-- The reverse-lookup loop of `set_value_str` fails with
`PropertyValueDoesNotExist` when no entry carries the label. -/
theorem set_value_str_loop_not_found (p : AFU420PropertyEnumImpl)
    (cam : Option AFU420DeviceBackend) (label : String) :
    ∀ l : List (Int × String), (∀ kv ∈ l, kv.2 ≠ label) →
      AFU420PropertyEnumImpl.set_value_str.set_value_str_loop p cam label l =
        (Except.error Status.propertyValueDoesNotExist, []) := by
  intro l
  induction l with
  | nil => intro _; rfl
  | cons hd tl ih =>
    intro h
    obtain ⟨k₀, s₀⟩ := hd
    unfold AFU420PropertyEnumImpl.set_value_str.set_value_str_loop
    rw [if_neg (h (k₀, s₀) (List.mem_cons_self _ _))]
    exact ih (fun kv hkv => h kv (List.mem_cons.mpr (Or.inr hkv)))

/-- When some entry carries the label, the reverse-lookup loop of
`set_value_str` defers to `set_value` on such an entry's code. -/
theorem set_value_str_loop_found (p : AFU420PropertyEnumImpl)
    (cam : Option AFU420DeviceBackend) (label : String) :
    ∀ l : List (Int × String), ∀ k, (k, label) ∈ l →
      ∃ k', (k', label) ∈ l ∧
        AFU420PropertyEnumImpl.set_value_str.set_value_str_loop
          p cam label l = p.set_value cam k' := by
  intro l
  induction l with
  | nil => intro k hk; cases hk
  | cons hd tl ih =>
    intro k hk
    obtain ⟨k₀, s₀⟩ := hd
    unfold AFU420PropertyEnumImpl.set_value_str.set_value_str_loop
    by_cases hs : s₀ = label
    · refine ⟨k₀, ?_, ?_⟩
      · rw [hs]
        exact List.mem_cons_self _ _
      · rw [if_pos hs]
    · rw [if_neg hs]
      rcases List.mem_cons.mp hk with h | h
      · exact absurd (congrArg Prod.snd h).symm hs
      · obtain ⟨k', hk', heq⟩ := ih k h
        exact ⟨k', List.mem_cons.mpr (Or.inr hk'), heq⟩

/-! ### Claims -/

/-- C1 (counterexample): the claim "set_value(v) runs range validation
before any backend interaction; if v is outside [get_min(), get_max()] it
returns an OutOfBounds failure and the backend write is never invoked" is
false: on the integer property with range `[0, 100]`, `set_value(150)`
performs the backend write `set_int(id, 150)` and returns the backend's
success, not `PropertyOutOfBounds`. -/
theorem integer_set_value_out_of_range_reaches_backend :
    gainProp.get_max = 100 ∧
    (gainProp.set_value (some acceptingBackend) 150).2 =
      [BackendCall.setInt 3 150] ∧
    (gainProp.set_value (some acceptingBackend) 150).1 = Except.ok () ∧
    Except.ok () ≠ (Except.error Status.propertyOutOfBounds :
      Except Status Unit) := by
  refine ⟨rfl, rfl, rfl, ?_⟩
  intro hc
  cases hc

/-- C1 (amended): `set_value(v)` performs no range validation of its own:
whenever the backend reference resolves it forwards `v` (for the Float
variant, `v` truncated to an integer) to the backend write for every `v`,
in range or not.  The range rule `min ≤ v ≤ max` lives only in the separate
member `valid_value(v)`, which `set_value` does not call and which fails
with `PropertyOutOfBounds` exactly off that range. -/
theorem set_value_forwards_without_validation
    (p : AFU420PropertyIntegerImpl) (q : AFU420PropertyDoubleImpl)
    (bk : AFU420DeviceBackend) (v : Int) (w : ℚ) :
    p.set_value (some bk) v =
      (bk.set_int p.m_id v, [BackendCall.setInt p.m_id v]) ∧
    (q.set_value (some bk) w).2 = [BackendCall.setInt q.m_id (ratTrunc w)] ∧
    (p.valid_value v = Except.error Status.propertyOutOfBounds ↔
      (v < p.get_min ∨ p.get_max < v)) ∧
    (q.valid_value w = Except.error Status.propertyOutOfBounds ↔
      (w < q.get_min ∨ q.get_max < w)) := by
  refine ⟨rfl, rfl, ?_, ?_⟩
  · unfold AFU420PropertyIntegerImpl.valid_value
    split_ifs with h
    · exact ⟨(fun _ => h), (fun _ => rfl)⟩
    · exact ⟨(fun hc => by cases hc), (fun hr => absurd hr h)⟩
  · unfold AFU420PropertyDoubleImpl.valid_value
    split_ifs with h
    · exact ⟨(fun _ => h), (fun _ => rfl)⟩
    · exact ⟨(fun hc => by cases hc), (fun hr => absurd hr h)⟩

/-- C2: `valid_value(v)` is boundary-inclusive and identical for the
Integer and the Float variant: it returns success iff
`get_min() ≤ v ≤ get_max()`, and returns `PropertyOutOfBounds` otherwise. -/
theorem valid_value_boundary_inclusive
    (p : AFU420PropertyIntegerImpl) (q : AFU420PropertyDoubleImpl)
    (v : Int) (w : ℚ) :
    (p.valid_value v = Except.ok () ↔ (p.get_min ≤ v ∧ v ≤ p.get_max)) ∧
    (¬ (p.get_min ≤ v ∧ v ≤ p.get_max) →
      p.valid_value v = Except.error Status.propertyOutOfBounds) ∧
    (q.valid_value w = Except.ok () ↔ (q.get_min ≤ w ∧ w ≤ q.get_max)) ∧
    (¬ (q.get_min ≤ w ∧ w ≤ q.get_max) →
      q.valid_value w = Except.error Status.propertyOutOfBounds) := by
  refine ⟨?_, ?_, ?_, ?_⟩
  · unfold AFU420PropertyIntegerImpl.valid_value
    split_ifs with h
    · exact ⟨(fun hc => by cases hc),
        (fun hc => absurd h (by push_neg; exact ⟨hc.1, hc.2⟩))⟩
    · push_neg at h
      exact ⟨(fun _ => ⟨h.1, h.2⟩), (fun _ => rfl)⟩
  · intro hn
    unfold AFU420PropertyIntegerImpl.valid_value
    split_ifs with h
    · rfl
    · push_neg at h
      exact absurd ⟨h.1, h.2⟩ hn
  · unfold AFU420PropertyDoubleImpl.valid_value
    split_ifs with h
    · exact ⟨(fun hc => by cases hc),
        (fun hc => absurd h (by push_neg; exact ⟨hc.1, hc.2⟩))⟩
    · push_neg at h
      exact ⟨(fun _ => ⟨h.1, h.2⟩), (fun _ => rfl)⟩
  · intro hn
    unfold AFU420PropertyDoubleImpl.valid_value
    split_ifs with h
    · rfl
    · push_neg at h
      exact absurd ⟨h.1, h.2⟩ hn

/-- C2 (witness): on the `[0, 100]` integer property, 150 is rejected with
`PropertyOutOfBounds`, and rational 250.7 is rejected by a `[0, 10]` check;
0 and 100 (the boundaries) are accepted. -/
theorem valid_value_boundary_inclusive_witness :
    gainProp.valid_value 150 = Except.error Status.propertyOutOfBounds ∧
    gainProp.valid_value 0 = Except.ok () ∧
    gainProp.valid_value 100 = Except.ok () := by
  refine ⟨(valid_value_boundary_inclusive gainProp exposureProp 150 0).2.1
    (by decide), ?_, ?_⟩
  · exact (valid_value_boundary_inclusive gainProp exposureProp 0 0).1.mpr
      (by decide)
  · exact (valid_value_boundary_inclusive gainProp exposureProp 100 0).1.mpr
      (by decide)

/-- C3 (counterexample): the claim "for every code not in the table
set_value returns a ValueDoesNotExist failure without touching hardware"
is false: `set_value` narrows the `int64_t` code to the 32-bit `int`
parameter of `valid_value` (and to the `int` keys of the table), so on the
table `{0:"Off", 1:"Auto", 2:"Manual"}` the absent code `2^32` aliases key
`0`, passes validation, and the un-narrowed 64-bit value is written to the
backend. -/
theorem enum_set_value_narrowed_code_reaches_backend :
    mapFind triggerProp.m_entries (2 ^ 32) = none ∧
    (triggerProp.set_value (some acceptingBackend) (2 ^ 32)).1 =
      Except.ok () ∧
    (triggerProp.set_value (some acceptingBackend) (2 ^ 32)).2 =
      [BackendCall.setInt 9 (2 ^ 32)] := by
  refine ⟨by decide, ?_, ?_⟩
  · rfl
  · rfl

/-- C3 (amended): `set_value(code)` checks membership of the code after
narrowing it to 32-bit `int` (the type of `valid_value`'s parameter and of
the table keys): every code whose 32-bit narrowing is absent from the table
— in particular every absent code representable as `int` — yields
`PropertyValueDoesNotExist` without any backend interaction, while a code
aliasing a table key modulo 2^32 is forwarded un-narrowed.
`set_value_str(label)` performs a linear reverse lookup of the label and
defers to `set_value` on the first matching entry's code; an unknown label
yields the same `PropertyValueDoesNotExist` without any backend
interaction, leaving the prior value unchanged. -/
theorem enum_set_value_membership_after_narrowing
    (p : AFU420PropertyEnumImpl) (cam : Option AFU420DeviceBackend)
    (code : Int) (label : String) :
    (mapFind p.m_entries (toInt32 code) = none →
      p.set_value cam code =
        (Except.error Status.propertyValueDoesNotExist, [])) ∧
    ((∀ kv ∈ p.m_entries, kv.2 ≠ label) →
      p.set_value_str cam label =
        (Except.error Status.propertyValueDoesNotExist, [])) ∧
    (∀ k, (k, label) ∈ p.m_entries →
      ∃ k', (k', label) ∈ p.m_entries ∧
        p.set_value_str cam label = p.set_value cam k') := by
  refine ⟨?_, ?_, ?_⟩
  · intro h
    unfold AFU420PropertyEnumImpl.set_value AFU420PropertyEnumImpl.valid_value
    rw [if_pos (by simp [h])]
  · intro h
    unfold AFU420PropertyEnumImpl.set_value_str
    exact set_value_str_loop_not_found p cam label p.m_entries h
  · intro k hk
    unfold AFU420PropertyEnumImpl.set_value_str
    exact set_value_str_loop_found p cam label p.m_entries k hk

/-- C3 (witness): on the table `{0:"Off", 1:"Auto", 2:"Manual"}`, the
absent code 5 and the unknown label "Bogus" are both rejected with
`PropertyValueDoesNotExist` and no backend call, and `set_value_str` on
"Auto" defers to `set_value` of an entry labelled "Auto". -/
theorem enum_set_value_membership_after_narrowing_witness :
    triggerProp.set_value (some acceptingBackend) 5 =
      (Except.error Status.propertyValueDoesNotExist, []) ∧
    triggerProp.set_value_str (some acceptingBackend) "Bogus" =
      (Except.error Status.propertyValueDoesNotExist, []) ∧
    (∃ k', (k', "Auto") ∈ triggerProp.m_entries ∧
      triggerProp.set_value_str (some acceptingBackend) "Auto" =
        triggerProp.set_value (some acceptingBackend) k') := by
  refine ⟨?_, ?_, ?_⟩
  · exact (enum_set_value_membership_after_narrowing triggerProp
      (some acceptingBackend) 5 "Bogus").1 (by decide)
  · exact (enum_set_value_membership_after_narrowing triggerProp
      (some acceptingBackend) 5 "Bogus").2.1 (by decide)
  · exact (enum_set_value_membership_after_narrowing triggerProp
      (some acceptingBackend) 5 "Auto").2.2 1 (by decide)

/-- C4 (counterexample): the claim "after the backend reference has become
unresolvable, every get_value(), set_value(v) and get_value_int() call
returns a ResourceUnreachable failure" is false for the Enumeration
variant: with the backend gone, `set_value(5)` on the table
`{0:"Off", 1:"Auto", 2:"Manual"}` fails validation first and returns
`PropertyValueDoesNotExist`, not `ResourceNotLockable`. -/
theorem enum_set_value_unreachable_invalid_code_status :
    (triggerProp.set_value none 5).1 =
      Except.error Status.propertyValueDoesNotExist ∧
    Status.propertyValueDoesNotExist ≠ Status.resourceNotLockable := by
  exact ⟨rfl, by decide⟩

/-- C4 (amended): after the backend reference has become unresolvable,
every `get_value()`, `get_value_int()` and `set_value(v)` call returns a
failure without any backend interaction — never a crash and never a stale
success.  The failure is `ResourceNotLockable` in every case except the
Enumeration `set_value` with a code failing the membership check, which
returns `PropertyValueDoesNotExist` (still without touching hardware). -/
theorem operations_after_teardown_fail_without_backend
    (p : AFU420PropertyIntegerImpl) (q : AFU420PropertyDoubleImpl)
    (b : AFU420PropertyBoolImpl) (e : AFU420PropertyEnumImpl)
    (v : Int) (w : ℚ) (bv : Bool) :
    p.get_value none = (Except.error Status.resourceNotLockable, []) ∧
    p.set_value none v = (Except.error Status.resourceNotLockable, []) ∧
    q.get_value none = (Except.error Status.resourceNotLockable, []) ∧
    q.set_value none w = (Except.error Status.resourceNotLockable, []) ∧
    b.get_value none = (Except.error Status.resourceNotLockable, []) ∧
    b.set_value none bv =
      (Except.error Status.resourceNotLockable, b, []) ∧
    e.get_value_int none = (Except.error Status.resourceNotLockable, []) ∧
    e.get_value none = (CallOutcome.err Status.resourceNotLockable, []) ∧
    e.set_value none v =
      ((if e.valid_value (toInt32 v) then
          Except.error Status.resourceNotLockable
        else Except.error Status.propertyValueDoesNotExist), []) := by
  refine ⟨rfl, rfl, rfl, rfl, rfl, rfl, rfl, rfl, ?_⟩
  by_cases h : e.valid_value (toInt32 v)
  · rw [if_pos h]
    unfold AFU420PropertyEnumImpl.set_value
    rw [if_neg (by simp [h])]
  · rw [if_neg h]
    unfold AFU420PropertyEnumImpl.set_value
    rw [if_pos (by simp [h])]

/-- C5 (counterexample): the claim "set_value(v) converts the requested
double v to the nearest representable integer before forwarding
(set_value(250.7) forwards 251)" is false: the implicit C++
`double → int64_t` conversion truncates toward zero, so on the
float-over-integer property with range `[0, 1000]`, `set_value(250.7)`
forwards 250 to the backend, not 251. -/
theorem double_set_value_truncates_not_rounds :
    (exposureProp.set_value (some acceptingBackend) (250.7 : ℚ)).2 =
      [BackendCall.setInt 4 250] ∧
    (250 : Int) ≠ 251 := by
  constructor
  · show [BackendCall.setInt 4 (ratTrunc (250.7 : ℚ))] = _
    norm_num [ratTrunc]
  · decide

/-- C5 (amended): for the Float-over-Integer property, `get_value()` reads
the underlying integer from the backend and returns it converted to double
(exactly, in this rational model of doubles), and `set_value(v)` converts
the requested double to an integer by truncation toward zero — the floor
for nonnegative v, the ceiling for negative v; e.g. `set_value(250.7)`
forwards 250 — before forwarding it to the backend. -/
theorem double_impl_cross_kind_conversion
    (q : AFU420PropertyDoubleImpl) (bk : AFU420DeviceBackend)
    (w : ℚ) (i : Int) :
    (q.set_value (some bk) w).2 = [BackendCall.setInt q.m_id (ratTrunc w)] ∧
    (0 ≤ w → ratTrunc w = ⌊w⌋) ∧
    (w < 0 → ratTrunc w = ⌈w⌉) ∧
    (bk.get_int q.m_id = Except.ok i →
      q.get_value (some bk) =
        (Except.ok (i : ℚ), [BackendCall.getInt q.m_id])) := by
  refine ⟨rfl, (fun h => ratTrunc_eq_floor h), (fun h => ratTrunc_eq_ceil h), ?_⟩
  intro h
  simp [AFU420PropertyDoubleImpl.get_value, h]

/-- C5 (witness): concrete instantiation on the `[0, 1000]`
float-over-integer property: the backend write carries the truncated
integer, `ratTrunc 250.7 = ⌊250.7⌋`, and reading an underlying 5 yields the
double 5. -/
theorem double_impl_cross_kind_conversion_witness :
    (exposureProp.set_value (some acceptingBackend) (250.7 : ℚ)).2 =
      [BackendCall.setInt 4 (ratTrunc (250.7 : ℚ))] ∧
    ratTrunc (250.7 : ℚ) = ⌊(250.7 : ℚ)⌋ ∧
    exposureProp.get_value (some acceptingBackend) =
      (Except.ok ((5 : Int) : ℚ), [BackendCall.getInt 4]) := by
  obtain ⟨h1, h2, h3, h4⟩ :=
    double_impl_cross_kind_conversion exposureProp acceptingBackend
      (250.7 : ℚ) 5
  exact ⟨h1, h2 (by norm_num), h4 rfl⟩

/-- C6 (counterexample): the claim "a failure reported by the backend is
returned to the caller unchanged ... for Integer, Float, Boolean, and
Enumeration set/get operations alike" is false for the Boolean variant:
when the backend's `set_bool` reports some other status, `set_value`
returns `UndefinedError` instead of that status. -/
theorem bool_set_value_replaces_backend_error :
    (strobeProp.set_value (some (failingBackend (Status.other 7))) true).1 =
      Except.error Status.undefinedError ∧
    Status.undefinedError ≠ Status.other 7 := by
  exact ⟨rfl, by decide⟩

/-- C6 (amended): a failure reported by the backend is returned unchanged
by the Integer, Float and Enumeration get/set operations and by the Boolean
`get_value`; the Boolean `set_value` alone replaces the backend-reported
failure with `UndefinedError`. -/
theorem backend_failures_passthrough
    (p : AFU420PropertyIntegerImpl) (q : AFU420PropertyDoubleImpl)
    (b : AFU420PropertyBoolImpl) (e : AFU420PropertyEnumImpl)
    (bk : AFU420DeviceBackend) (er : Status)
    (v : Int) (w : ℚ) (bv : Bool) (code : Int) :
    (bk.set_int p.m_id v = Except.error er →
      (p.set_value (some bk) v).1 = Except.error er) ∧
    (bk.get_int p.m_id = Except.error er →
      (p.get_value (some bk)).1 = Except.error er) ∧
    (bk.set_int q.m_id (ratTrunc w) = Except.error er →
      (q.set_value (some bk) w).1 = Except.error er) ∧
    (bk.get_int q.m_id = Except.error er →
      (q.get_value (some bk)).1 = Except.error er) ∧
    (e.valid_value (toInt32 code) = true →
      bk.set_int e.m_id code = Except.error er →
      (e.set_value (some bk) code).1 = Except.error er) ∧
    (bk.get_int e.m_id = Except.error er →
      (e.get_value_int (some bk)).1 = Except.error er) ∧
    (bk.get_bool b.m_id = Except.error er →
      (b.get_value (some bk)).1 = Except.error er) ∧
    (bk.set_bool b.m_id bv = Except.error er →
      (b.set_value (some bk) bv).1 = Except.error Status.undefinedError) := by
  refine ⟨?_, ?_, ?_, ?_, ?_, ?_, ?_, ?_⟩
  · intro h
    simp [AFU420PropertyIntegerImpl.set_value, h]
  · intro h
    simp [AFU420PropertyIntegerImpl.get_value, h]
  · intro h
    simp [AFU420PropertyDoubleImpl.set_value, h]
  · intro h
    simp [AFU420PropertyDoubleImpl.get_value, h]
  · intro hv h
    simp [AFU420PropertyEnumImpl.set_value, hv, h]
  · intro h
    simp [AFU420PropertyEnumImpl.get_value_int, h]
  · intro h
    simp [AFU420PropertyBoolImpl.get_value, h]
  · intro h
    simp [AFU420PropertyBoolImpl.set_value, h]

/-- C6 (witness): concrete instantiation with a backend failing with
`Status.other 7`: every numeric/enumeration operation surfaces
`Status.other 7` itself, the boolean write surfaces `UndefinedError`. -/
theorem backend_failures_passthrough_witness :
    (gainProp.set_value (some (failingBackend (Status.other 7))) 42).1 =
      Except.error (Status.other 7) ∧
    (exposureProp.get_value (some (failingBackend (Status.other 7)))).1 =
      Except.error (Status.other 7) ∧
    (triggerProp.set_value (some (failingBackend (Status.other 7))) 1).1 =
      Except.error (Status.other 7) ∧
    (strobeProp.set_value (some (failingBackend (Status.other 7))) true).1 =
      Except.error Status.undefinedError := by
  obtain ⟨h1, h2, h3, h4, h5, h6, h7, h8⟩ :=
    backend_failures_passthrough gainProp exposureProp strobeProp triggerProp
      (failingBackend (Status.other 7)) (Status.other 7) 42 (250.7 : ℚ)
      true 1
  exact ⟨h1 rfl, h4 rfl, h5 (by decide) rfl, h8 rfl⟩

/-- C7: the Boolean `set_value(v)` updates the cached mirror `m_value` to v
exactly when the backend write succeeds; on a backend-reported failure and
on the unresolvable-backend failure the property state (hence the mirror)
is left unchanged. -/
theorem bool_set_value_mirror_only_on_success
    (b : AFU420PropertyBoolImpl) (bk : AFU420DeviceBackend)
    (v : Bool) (er : Status) :
    (bk.set_bool b.m_id v = Except.ok () →
      (b.set_value (some bk) v).2.1.m_value = v ∧
      (b.set_value (some bk) v).1 = Except.ok ()) ∧
    (bk.set_bool b.m_id v = Except.error er →
      (b.set_value (some bk) v).2.1 = b) ∧
    ((b.set_value none v).2.1 = b ∧
      (b.set_value none v).1 = Except.error Status.resourceNotLockable) := by
  refine ⟨?_, ?_, rfl, rfl⟩
  · intro h
    simp [AFU420PropertyBoolImpl.set_value, h]
  · intro h
    simp [AFU420PropertyBoolImpl.set_value, h]

/-- C7 (witness): with an accepting backend the mirror of the boolean
property becomes true; with a failing backend the property is unchanged. -/
theorem bool_set_value_mirror_only_on_success_witness :
    (strobeProp.set_value (some acceptingBackend) true).2.1.m_value = true ∧
    (strobeProp.set_value
      (some (failingBackend (Status.other 7))) true).2.1 = strobeProp := by
  refine ⟨?_, ?_⟩
  · exact ((bool_set_value_mirror_only_on_success strobeProp acceptingBackend
      true (Status.other 7)).1 rfl).1
  · exact (bool_set_value_mirror_only_on_success strobeProp
      (failingBackend (Status.other 7)) true (Status.other 7)).2.1 rfl

/-- C8: at the failing input — table `{0:"Off", 1:"Auto", 2:"Manual"}`,
backend current code 5 — Enumeration `get_value()` does not return a result
value: `m_entries.at(5)` throws `std::out_of_range` (the uncaught-exception
outcome), contradicting "every error condition is surfaced as an explicit
result value and never as an uncatchable fault". -/
theorem enum_get_value_throws_on_code_outside_table :
    acceptingBackend.get_int 9 = Except.ok 5 ∧
    mapFind triggerProp.m_entries 5 = none ∧
    (triggerProp.get_value (some acceptingBackend)).1 =
      CallOutcome.thrown := by
  exact ⟨rfl, by decide, rfl⟩

/-- C9: `get_entries()` returns exactly the labels of all entries of the
entry table, one per entry, in table order: for a table built by `std::map`
insertion from any pairs, the stored entries' integer codes are strictly
ascending, `get_entries` is their labels in that order (same length, i-th
label belongs to the i-th smallest code), and every stored entry comes from
the inserted pairs. -/
theorem get_entries_labels_in_ascending_code_order
    (name : String) (id : AFU420Property)
    (lookup : find_prop_static_info_res) (l : List (Int × String)) :
    (AFU420PropertyEnumImpl.construct name id (mapOfList l)
        lookup).m_entries.Pairwise (fun a b => a.1 < b.1) ∧
    (AFU420PropertyEnumImpl.construct name id (mapOfList l)
        lookup).get_entries =
      (AFU420PropertyEnumImpl.construct name id (mapOfList l)
        lookup).m_entries.map Prod.snd ∧
    (AFU420PropertyEnumImpl.construct name id (mapOfList l)
        lookup).get_entries.length =
      (AFU420PropertyEnumImpl.construct name id (mapOfList l)
        lookup).m_entries.length ∧
    ∀ kv, kv ∈ (AFU420PropertyEnumImpl.construct name id (mapOfList l)
        lookup).m_entries → kv ∈ l := by
  refine ⟨?_, rfl, ?_, ?_⟩
  · exact pairwise_foldl_mapInsert l [] (List.Pairwise.nil)
  · exact (List.length_map _ _).symm ▸ rfl
  · intro kv hkv
    rcases mem_foldl_mapInsert l [] kv hkv with h | h
    · cases h
    · exact h

/-- C9 (witness): building the table from the unsorted pairs
`[(2,"Manual"), (0,"Off"), (1,"Auto")]` yields strictly ascending codes and
`get_entries = ["Off", "Auto", "Manual"]`, and each stored entry is one of
the inserted pairs. -/
theorem get_entries_labels_in_ascending_code_order_witness :
    (AFU420PropertyEnumImpl.construct "TriggerMode" 9
      (mapOfList [(2, "Manual"), (0, "Off"), (1, "Auto")])
      ⟨prop_type.Enumeration, none⟩).m_entries.Pairwise
        (fun a b => a.1 < b.1) ∧
    (AFU420PropertyEnumImpl.construct "TriggerMode" 9
      (mapOfList [(2, "Manual"), (0, "Off"), (1, "Auto")])
      ⟨prop_type.Enumeration, none⟩).get_entries =
        ["Off", "Auto", "Manual"] ∧
    ((0 : Int), "Off") ∈
      ([(2, "Manual"), (0, "Off"), (1, "Auto")] : List (Int × String)) := by
  obtain ⟨h1, h2, h3, h4⟩ :=
    get_entries_labels_in_ascending_code_order "TriggerMode" 9
      ⟨prop_type.Enumeration, none⟩ [(2, "Manual"), (0, "Off"), (1, "Auto")]
  refine ⟨h1, ?_, h4 (0, "Off") (by decide)⟩
  rw [h2]
  rfl

/-- C10: every AFU420 property variant is constructed with
`m_flags = Available | Implemented`, whatever the static-descriptor lookup
returned; a lookup that failed (null pointer) or produced the wrong type
only leaves `p_static_info` null, it changes no flags and does not prevent
construction. -/
theorem constructors_flags_available_implemented
    (name : String) (i : tcam_value_int) (d : tcam_value_double)
    (dv : Bool) (entries : List (Int × String)) (id : AFU420Property)
    (lookup : find_prop_static_info_res) :
    (AFU420PropertyIntegerImpl.construct name i id lookup).m_flags =
      PropertyFlags.availableImplemented ∧
    (AFU420PropertyDoubleImpl.construct name d id lookup).m_flags =
      PropertyFlags.availableImplemented ∧
    (AFU420PropertyBoolImpl.construct name dv id lookup).m_flags =
      PropertyFlags.availableImplemented ∧
    (AFU420PropertyEnumImpl.construct name id entries lookup).m_flags =
      PropertyFlags.availableImplemented ∧
    (lookup.type ≠ prop_type.Integer ∨ lookup.info_ptr = none →
      (AFU420PropertyIntegerImpl.construct name i id lookup).p_static_info =
        none) ∧
    (lookup.type ≠ prop_type.Float ∨ lookup.info_ptr = none →
      (AFU420PropertyDoubleImpl.construct name d id lookup).p_static_info =
        none) ∧
    (lookup.type ≠ prop_type.Boolean ∨ lookup.info_ptr = none →
      (AFU420PropertyBoolImpl.construct name dv id lookup).p_static_info =
        none) ∧
    (lookup.type ≠ prop_type.Enumeration ∨ lookup.info_ptr = none →
      (AFU420PropertyEnumImpl.construct name id entries
        lookup).p_static_info = none) := by
  refine ⟨rfl, rfl, rfl, rfl, ?_, ?_, ?_, ?_⟩ <;>
    · rintro (h | h)
      · simp [AFU420PropertyIntegerImpl.construct,
          AFU420PropertyDoubleImpl.construct,
          AFU420PropertyBoolImpl.construct,
          AFU420PropertyEnumImpl.construct, h]
      · simp [AFU420PropertyIntegerImpl.construct,
          AFU420PropertyDoubleImpl.construct,
          AFU420PropertyBoolImpl.construct,
          AFU420PropertyEnumImpl.construct, h]

/-- C10 (witness): a wrong-typed lookup (a `Float` record offered to the
integer constructor) still yields flags `Available | Implemented` and a
null `p_static_info`. -/
theorem constructors_flags_available_implemented_witness :
    (AFU420PropertyIntegerImpl.construct "Gain" ⟨0, 100, 1, 50⟩ 3
      ⟨prop_type.Float, some ⟨0⟩⟩).m_flags =
        PropertyFlags.availableImplemented ∧
    (AFU420PropertyIntegerImpl.construct "Gain" ⟨0, 100, 1, 50⟩ 3
      ⟨prop_type.Float, some ⟨0⟩⟩).p_static_info = none := by
  obtain ⟨h1, _, _, _, h5, _⟩ :=
    constructors_flags_available_implemented "Gain" ⟨0, 100, 1, 50⟩
      ⟨0, 1000, 1, 33⟩ false [] 3 ⟨prop_type.Float, some ⟨0⟩⟩
  exact ⟨h1, h5 (Or.inl (by decide))⟩

end AFU420
